import Mathlib

/-!
# Configuration header `4-button-button-sample.h`

The header declares eight globals of type `const char*`, each initialised with a
string literal.  This development embeds the eight values, a JSON reader for the
four payload templates (grammar of RFC 8259), and a small model of the two ways C++
code may try to update such a global (assigning to the name, storing through it).
-/

namespace FourButton

/-! ## The eight constants

Each definition is the value of the corresponding C string literal after escape
processing.  The source writes the opening and closing brace of a payload directly;
here they are spelled `\x7b` and `\x7d`, which denote the same two characters. -/

/-- Line 4: `const char* urlShopStatus = "REPLACE_WITH_URL_TO_STATUS_WEBHOOK";` -/
def urlShopStatus : String := "REPLACE_WITH_URL_TO_STATUS_WEBHOOK"

/-- Line 5: `closeShopJSON`. -/
def closeShopJSON : String :=
  "\x7b\"id\":\"REPLACE_WITH_MAKERSPACE_RECORD_ID\",\"status\":\"Closed\"\x7d"

/-- Line 6: `softopenShopJSON`. -/
def softopenShopJSON : String :=
  "\x7b\"id\":\"REPLACE_WITH_MAKERSPACE_RECORD_ID\",\"status\":\"Soft Open\"\x7d"

/-- Line 7: `openShopJSON`. -/
def openShopJSON : String :=
  "\x7b\"id\":\"REPLACE_WITH_MAKERSPACE_RECORD_ID\",\"status\":\"Open\"\x7d"

/-- Line 9: `const char* urlClearCheckin = "REPLACE_WITH_URL_TO_CLEAR_CHECKINS_WEBHOOK";` -/
def urlClearCheckin : String := "REPLACE_WITH_URL_TO_CLEAR_CHECKINS_WEBHOOK"

/-- Line 10: `clearCheckinJSON`. -/
def clearCheckinJSON : String :=
  "\x7b\"id\":\"REPLACE_WITH_MAKERSPACE_RECORD_ID\",\"reason\":\"418\"\x7d"

/-- Line 12: `const char* wifiSSID = "REPLACE_WITH_WIFI_SSID";` -/
def wifiSSID : String := "REPLACE_WITH_WIFI_SSID"

/-- Line 13: `const char* wifiPassword = "REPLACE_WITH_WIFI_PASSWORD";` -/
def wifiPassword : String := "REPLACE_WITH_WIFI_PASSWORD"

/-! ## JSON values and a reader for the RFC 8259 grammar -/

/-- A JSON value.  A number keeps its lexeme, an object keeps its members in the
order read, duplicates included. -/
inductive JValue where
  | null : JValue
  | bool : Bool → JValue
  | number : String → JValue
  | string : String → JValue
  | array : List JValue → JValue
  | object : List (String × JValue) → JValue

/-- Code point of the quotation mark. -/
def cQuote : Nat := 0x22
/-- Code point of the reverse solidus. -/
def cBackslash : Nat := 0x5C
/-- Code point of the left curly bracket. -/
def cLBrace : Nat := 0x7B
/-- Code point of the right curly bracket. -/
def cRBrace : Nat := 0x7D
/-- Code point of the left square bracket. -/
def cLBracket : Nat := 0x5B
/-- Code point of the right square bracket. -/
def cRBracket : Nat := 0x5D
/-- Code point of the comma. -/
def cComma : Nat := 0x2C
/-- Code point of the colon. -/
def cColon : Nat := 0x3A

/-- Insignificant whitespace: space, horizontal tab, line feed, carriage return. -/
def isBlank (c : Char) : Bool :=
  c.toNat == 0x20 || c.toNat == 0x09 || c.toNat == 0x0A || c.toNat == 0x0D

/-- Decimal digit. -/
def isDec (c : Char) : Bool := 0x30 ≤ c.toNat && c.toNat ≤ 0x39

/-- Remove leading whitespace. -/
def dropBlank : List Char → List Char
  | [] => []
  | c :: cs => if isBlank c then dropBlank cs else c :: cs

/-- Value of a hexadecimal digit. -/
def hexDigit (c : Char) : Option Nat :=
  let n := c.toNat
  if 0x30 ≤ n && n ≤ 0x39 then some (n - 0x30)
  else if 0x41 ≤ n && n ≤ 0x46 then some (n - 0x41 + 10)
  else if 0x61 ≤ n && n ≤ 0x66 then some (n - 0x61 + 10)
  else none

/-- Read four hexadecimal digits as a 16-bit code unit. -/
def hexQuad : List Char → Option (Nat × List Char)
  | a :: b :: c :: d :: rest =>
    match hexDigit a, hexDigit b, hexDigit c, hexDigit d with
    | some x, some y, some z, some w => some (x * 4096 + y * 256 + z * 16 + w, rest)
    | _, _, _, _ => none
  | _ => none

/-- The character a single-letter escape stands for. -/
def simpleEscape (c : Char) : Option Char :=
  let n := c.toNat
  if n == cQuote then some (Char.ofNat cQuote)
  else if n == cBackslash then some (Char.ofNat cBackslash)
  else if n == 0x2F then some (Char.ofNat 0x2F)
  else if n == 0x62 then some (Char.ofNat 0x08)
  else if n == 0x66 then some (Char.ofNat 0x0C)
  else if n == 0x6E then some (Char.ofNat 0x0A)
  else if n == 0x72 then some (Char.ofNat 0x0D)
  else if n == 0x74 then some (Char.ofNat 0x09)
  else none

/-- Read the body of a string, the opening quotation mark already consumed.  The
first argument bounds the number of steps, the second collects the characters read
so far in reverse. -/
def readString : Nat → List Char → List Char → Option (String × List Char)
  | 0, _, _ => none
  | _ + 1, _, [] => none
  | fuel + 1, acc, c :: cs =>
    if c.toNat == cQuote then some (String.mk acc.reverse, cs)
    else if c.toNat == cBackslash then
      match cs with
      | [] => none
      | e :: rest =>
        if e.toNat == 0x75 then
          match hexQuad rest with
          | none => none
          | some (hi, rest1) =>
            if 0xD800 ≤ hi && hi ≤ 0xDBFF then
              match rest1 with
              | b :: u :: rest2 =>
                if b.toNat == cBackslash && u.toNat == 0x75 then
                  match hexQuad rest2 with
                  | some (lo, rest3) =>
                    if 0xDC00 ≤ lo && lo ≤ 0xDFFF then
                      readString fuel
                        (Char.ofNat (0x10000 + (hi - 0xD800) * 1024 + (lo - 0xDC00)) :: acc)
                        rest3
                    else readString fuel (Char.ofNat 0xFFFD :: acc) rest1
                  | none => none
                else readString fuel (Char.ofNat 0xFFFD :: acc) rest1
              | _ => readString fuel (Char.ofNat 0xFFFD :: acc) rest1
            else if 0xDC00 ≤ hi && hi ≤ 0xDFFF then
              readString fuel (Char.ofNat 0xFFFD :: acc) rest1
            else readString fuel (Char.ofNat hi :: acc) rest1
        else
          match simpleEscape e with
          | some ch => readString fuel (ch :: acc) rest
          | none => none
    else if c.toNat < 0x20 then none
    else readString fuel (c :: acc) cs

/-- Split off the longest leading run of decimal digits. -/
def spanDigits : List Char → List Char × List Char
  | [] => ([], [])
  | c :: cs =>
    if isDec c then ((spanDigits cs).1.cons c, (spanDigits cs).2) else ([], c :: cs)

/-- Read a number: optional minus, integer part without superfluous leading zero,
optional fraction, optional exponent.  Returns the lexeme and the remaining input. -/
def readNumber (cs : List Char) : Option (String × List Char) :=
  let sign : List Char × List Char :=
    match cs with
    | c :: rest => if c.toNat == 0x2D then ([c], rest) else ([], cs)
    | [] => ([], [])
  let intPart := spanDigits sign.2
  let intOk : Bool :=
    match intPart.1 with
    | [] => false
    | [_] => true
    | d :: _ :: _ => d.toNat != 0x30
  if !intOk then none
  else
    let frac : Option (List Char × List Char) :=
      match intPart.2 with
      | c :: rest =>
        if c.toNat == 0x2E then
          (match spanDigits rest with
           | ([], _) => none
           | (ds, r) => some (c :: ds, r))
        else some ([], intPart.2)
      | [] => some ([], [])
    match frac with
    | none => none
    | some (fracLex, afterFrac) =>
      let expo : Option (List Char × List Char) :=
        match afterFrac with
        | c :: rest =>
          if c.toNat == 0x65 || c.toNat == 0x45 then
            let sgn : List Char × List Char :=
              match rest with
              | s :: r => if s.toNat == 0x2B || s.toNat == 0x2D then ([s], r) else ([], rest)
              | [] => ([], [])
            (match spanDigits sgn.2 with
             | ([], _) => none
             | (ds, r) => some (c :: (sgn.1 ++ ds), r))
          else some ([], afterFrac)
        | [] => some ([], [])
      match expo with
      | none => none
      | some (expLex, afterExp) =>
        some (String.mk (sign.1 ++ intPart.1 ++ fracLex ++ expLex), afterExp)

/-- Strip a fixed keyword from the front of the input. -/
def readKeyword : List Char → List Char → Option (List Char)
  | [], cs => some cs
  | _ :: _, [] => none
  | k :: ks, c :: cs => if k == c then readKeyword ks cs else none

mutual
/-- Read one value; leading whitespace is skipped, trailing input is returned. -/
def readValue : Nat → List Char → Option (JValue × List Char)
  | 0, _ => none
  | fuel + 1, cs =>
    match dropBlank cs with
    | [] => none
    | c :: rest =>
      if c.toNat == cLBrace then
        match dropBlank rest with
        | d :: rest1 =>
          if d.toNat == cRBrace then some (JValue.object [], rest1)
          else
            match readMembers fuel (d :: rest1) with
            | some (ms, rest2) => some (JValue.object ms, rest2)
            | none => none
        | [] => none
      else if c.toNat == cLBracket then
        match dropBlank rest with
        | d :: rest1 =>
          if d.toNat == cRBracket then some (JValue.array [], rest1)
          else
            match readElements fuel (d :: rest1) with
            | some (vs, rest2) => some (JValue.array vs, rest2)
            | none => none
        | [] => none
      else if c.toNat == cQuote then
        match readString (rest.length + 1) [] rest with
        | some (s, rest1) => some (JValue.string s, rest1)
        | none => none
      else if c.toNat == 0x74 then
        match readKeyword "true".data (c :: rest) with
        | some rest1 => some (JValue.bool true, rest1)
        | none => none
      else if c.toNat == 0x66 then
        match readKeyword "false".data (c :: rest) with
        | some rest1 => some (JValue.bool false, rest1)
        | none => none
      else if c.toNat == 0x6E then
        match readKeyword "null".data (c :: rest) with
        | some rest1 => some (JValue.null, rest1)
        | none => none
      else
        match readNumber (c :: rest) with
        | some (lex, rest1) => some (JValue.number lex, rest1)
        | none => none
/-- Read one or more comma-separated values up to and including the closing
square bracket. -/
def readElements : Nat → List Char → Option (List JValue × List Char)
  | 0, _ => none
  | fuel + 1, cs =>
    match readValue fuel cs with
    | none => none
    | some (v, rest) =>
      match dropBlank rest with
      | d :: rest1 =>
        if d.toNat == cRBracket then some ([v], rest1)
        else if d.toNat == cComma then
          match readElements fuel rest1 with
          | some (vs, rest2) => some (v :: vs, rest2)
          | none => none
        else none
      | [] => none
/-- Read one or more comma-separated `name : value` members up to and including the
closing curly bracket. -/
def readMembers : Nat → List Char → Option (List (String × JValue) × List Char)
  | 0, _ => none
  | fuel + 1, cs =>
    match dropBlank cs with
    | q :: rest =>
      if q.toNat == cQuote then
        match readString (rest.length + 1) [] rest with
        | none => none
        | some (key, rest1) =>
          match dropBlank rest1 with
          | col :: rest2 =>
            if col.toNat == cColon then
              match readValue fuel rest2 with
              | none => none
              | some (v, rest3) =>
                match dropBlank rest3 with
                | d :: rest4 =>
                  if d.toNat == cRBrace then some ([(key, v)], rest4)
                  else if d.toNat == cComma then
                    match readMembers fuel rest4 with
                    | some (ms, rest5) => some ((key, v) :: ms, rest5)
                    | none => none
                  else none
                | [] => none
            else none
          | [] => none
      else none
    | [] => none
end

/-- Read a complete JSON text: one value, optionally surrounded by whitespace, and
nothing after it. -/
def parseJSON (s : String) : Option JValue :=
  match readValue (s.data.length + 1) s.data with
  | some (v, rest) =>
    match dropBlank rest with
    | [] => some v
    | _ :: _ => none
  | none => none

end FourButton

namespace FourButton

/-! ## Observations on parsed values -/

/-- Members of an object; `none` for every other kind of value. -/
def JValue.asObject : JValue → Option (List (String × JValue))
  | JValue.object ms => some ms
  | _ => none

/-- Content of a string value; `none` for every other kind of value. -/
def JValue.asString : JValue → Option String
  | JValue.string s => some s
  | _ => none

/-- Whether the value is a JSON string. -/
def JValue.isString : JValue → Bool
  | JValue.string _ => true
  | _ => false

/-- First value stored under `key` in a member list. -/
def lookupMember (key : String) : List (String × JValue) → Option JValue
  | [] => none
  | (k, v) :: ms => if k == key then some v else lookupMember key ms

/-- Member names of the object a text parses to, in order of appearance. -/
def keysOf (text : String) : Option (List String) :=
  match parseJSON text with
  | some (JValue.object ms) => some (ms.map Prod.fst)
  | _ => none

/-- Value stored under `key` in the object a text parses to. -/
def fieldOf (key : String) (text : String) : Option JValue :=
  match parseJSON text with
  | some (JValue.object ms) => lookupMember key ms
  | _ => none

/-- String stored under `key` in the object a text parses to; `none` when the text is
not an object, lacks the key, or holds a non-string there. -/
def stringFieldOf (key : String) (text : String) : Option String :=
  match fieldOf key text with
  | some (JValue.string s) => some s
  | _ => none

/-- Members of the object a text parses to, those named `key` left out. -/
def membersWithout (key : String) (text : String) : Option (List (String × JValue)) :=
  match parseJSON text with
  | some (JValue.object ms) => some (ms.filter (fun m => !(m.1 == key)))
  | _ => none

/-! ## Observations on raw strings -/

/-- Length as C measures it: the number of bytes before the first NUL. -/
def cStrlen (s : String) : Nat :=
  ((s.data.takeWhile (fun c => c.toNat != 0)).map Char.utf8Size).sum

/-- Whether `pat` occurs as a contiguous run inside `s`. -/
def occursIn (pat : List Char) : List Char → Bool
  | [] => pat.isPrefixOf []
  | c :: cs => pat.isPrefixOf (c :: cs) || occursIn pat cs

/-- The marker every placeholder carries. -/
def placeholderMarker : String := "REPLACE_WITH_"

/-- Characters of an identifier-like token: upper-case letter, digit, underscore. -/
def isTokenChar (c : Char) : Bool :=
  (0x41 ≤ c.toNat && c.toNat ≤ 0x5A) || (0x30 ≤ c.toNat && c.toNat ≤ 0x39) || c.toNat == 0x5F

/-- The string contains the placeholder marker somewhere. -/
def hasMarker (s : String) : Bool := occursIn placeholderMarker.data s.data

/-- The string starts with the placeholder marker. -/
def startsWithMarker (s : String) : Bool := placeholderMarker.data.isPrefixOf s.data

/-- The whole string is one token that starts with the placeholder marker. -/
def isPlaceholderToken (s : String) : Bool :=
  startsWithMarker s && s.data.all isTokenChar

/-- The three shop states listed in the glossary. -/
def shopStates : List String := ["Closed", "Soft Open", "Open"]

/-! ## Updating the globals

Every declaration in the header has the form `const char* name = "...";`: the object
named is a pointer that is not itself `const`, and it points at `const char`. -/

/-- The eight globals. -/
inductive ConfigName where
  | urlShopStatus | closeShopJSON | softopenShopJSON | openShopJSON
  | urlClearCheckin | clearCheckinJSON | wifiSSID | wifiPassword
  deriving DecidableEq, Repr

/-- Qualifiers of a declared pointer type. -/
structure PtrType where
  /-- The characters pointed at are `const`. -/
  pointeeConst : Bool
  /-- The pointer object itself is `const`. -/
  pointerConst : Bool
  deriving DecidableEq, Repr

/-- Declared type of each global: `const char*` on every line. -/
def declaredType : ConfigName → PtrType
  | ConfigName.urlShopStatus => { pointeeConst := true, pointerConst := false }
  | ConfigName.closeShopJSON => { pointeeConst := true, pointerConst := false }
  | ConfigName.softopenShopJSON => { pointeeConst := true, pointerConst := false }
  | ConfigName.openShopJSON => { pointeeConst := true, pointerConst := false }
  | ConfigName.urlClearCheckin => { pointeeConst := true, pointerConst := false }
  | ConfigName.clearCheckinJSON => { pointeeConst := true, pointerConst := false }
  | ConfigName.wifiSSID => { pointeeConst := true, pointerConst := false }
  | ConfigName.wifiPassword => { pointeeConst := true, pointerConst := false }

/-- The literal each global is initialised with. -/
def initialiser : ConfigName → String
  | ConfigName.urlShopStatus => urlShopStatus
  | ConfigName.closeShopJSON => closeShopJSON
  | ConfigName.softopenShopJSON => softopenShopJSON
  | ConfigName.openShopJSON => openShopJSON
  | ConfigName.urlClearCheckin => urlClearCheckin
  | ConfigName.clearCheckinJSON => clearCheckinJSON
  | ConfigName.wifiSSID => wifiSSID
  | ConfigName.wifiPassword => wifiPassword

/-- Address given to the literal of each global (one array per declaration). -/
def literalAddr : ConfigName → Nat
  | ConfigName.urlShopStatus => 0
  | ConfigName.closeShopJSON => 1
  | ConfigName.softopenShopJSON => 2
  | ConfigName.openShopJSON => 3
  | ConfigName.urlClearCheckin => 4
  | ConfigName.clearCheckinJSON => 5
  | ConfigName.wifiSSID => 6
  | ConfigName.wifiPassword => 7

/-- Program state seen through the header: the pointer held by each global and the
character arrays in memory. -/
structure ConfigState where
  /-- Address held by each global. -/
  ptr : ConfigName → Nat
  /-- Characters of the array at each address, if one lives there. -/
  mem : Nat → Option String

/-- State right after initialisation. -/
def initState : ConfigState where
  ptr := literalAddr
  mem := fun a =>
    if a = 0 then some urlShopStatus
    else if a = 1 then some closeShopJSON
    else if a = 2 then some softopenShopJSON
    else if a = 3 then some openShopJSON
    else if a = 4 then some urlClearCheckin
    else if a = 5 then some clearCheckinJSON
    else if a = 6 then some wifiSSID
    else if a = 7 then some wifiPassword
    else none

/-- The string a global denotes: the array its pointer refers to. -/
def denotes (σ : ConfigState) (n : ConfigName) : Option String := σ.mem (σ.ptr n)

/-- The two kinds of update including code may write down: `name = p;` with `p` a
`const char*` value, and `name[i] = c;`. -/
inductive ConfigOp where
  | assign (name : ConfigName) (addr : Nat)
  | store (name : ConfigName) (index : Nat) (c : Char)

/-- Whether the compiler accepts the update: the assigned-to object must not be
`const`.  For `name = p` that object is the pointer, for `name[i] = c` it is a
character pointed at. -/
def wellTyped : ConfigOp → Bool
  | ConfigOp.assign name _ => !(declaredType name).pointerConst
  | ConfigOp.store name _ _ => !(declaredType name).pointeeConst

/-- Replace the character at position `i`, leaving shorter strings unchanged. -/
def setCharAt (s : String) (i : Nat) (c : Char) : String := String.mk (s.data.set i c)

/-- Effect of an update on the state. -/
def exec (σ : ConfigState) : ConfigOp → ConfigState
  | ConfigOp.assign name addr =>
    { σ with ptr := fun m => if m = name then addr else σ.ptr m }
  | ConfigOp.store name index c =>
    { σ with mem := fun a =>
        if a = σ.ptr name then (σ.mem a).map (fun s => setCharAt s index c) else σ.mem a }

/-- One update as the compiled program performs it: rejected updates never run. -/
def step (σ : ConfigState) (op : ConfigOp) : Option ConfigState :=
  if wellTyped op then some (exec σ op) else none

end FourButton

namespace FourButton

/-! ## What the four templates parse to -/

/-- The record identifier placeholder shared by the payloads. -/
def recordIdPlaceholder : String := "REPLACE_WITH_MAKERSPACE_RECORD_ID"

/-- Value the reader returns for `closeShopJSON`. -/
theorem parse_closeShopJSON :
    parseJSON closeShopJSON =
      some (JValue.object
        [("id", JValue.string recordIdPlaceholder), ("status", JValue.string "Closed")]) := by
  rfl

/-- Value the reader returns for `softopenShopJSON`. -/
theorem parse_softopenShopJSON :
    parseJSON softopenShopJSON =
      some (JValue.object
        [("id", JValue.string recordIdPlaceholder), ("status", JValue.string "Soft Open")]) := by
  rfl

/-- Value the reader returns for `openShopJSON`. -/
theorem parse_openShopJSON :
    parseJSON openShopJSON =
      some (JValue.object
        [("id", JValue.string recordIdPlaceholder), ("status", JValue.string "Open")]) := by
  rfl

/-- Value the reader returns for `clearCheckinJSON`. -/
theorem parse_clearCheckinJSON :
    parseJSON clearCheckinJSON =
      some (JValue.object
        [("id", JValue.string recordIdPlaceholder), ("reason", JValue.string "418")]) := by
  rfl

/-! ## Claims -/

/-- Claim C1: each of the four JSON templates is accepted by the JSON reader as a
complete text and the value read is an object: reading one value consumes the whole
string, leaving no input behind, and the reader of complete texts returns that
object. -/
theorem templates_parse_to_objects :
    (∃ ms, readValue (closeShopJSON.data.length + 1) closeShopJSON.data
        = some (JValue.object ms, []) ∧
      parseJSON closeShopJSON = some (JValue.object ms)) ∧
    (∃ ms, readValue (softopenShopJSON.data.length + 1) softopenShopJSON.data
        = some (JValue.object ms, []) ∧
      parseJSON softopenShopJSON = some (JValue.object ms)) ∧
    (∃ ms, readValue (openShopJSON.data.length + 1) openShopJSON.data
        = some (JValue.object ms, []) ∧
      parseJSON openShopJSON = some (JValue.object ms)) ∧
    (∃ ms, readValue (clearCheckinJSON.data.length + 1) clearCheckinJSON.data
        = some (JValue.object ms, []) ∧
      parseJSON clearCheckinJSON = some (JValue.object ms)) :=
  ⟨⟨_, rfl, parse_closeShopJSON⟩, ⟨_, rfl, parse_softopenShopJSON⟩,
    ⟨_, rfl, parse_openShopJSON⟩, ⟨_, rfl, parse_clearCheckinJSON⟩⟩

/-- Claim C2: every parsed template has the key "id" and exactly one of "status" and
"reason": the three shop-status templates have "id" and "status" and no "reason",
the clear-checkin template has "id" and "reason" and no "status". -/
theorem templates_have_documented_keys :
    (∃ ks, keysOf closeShopJSON = some ks ∧ "id" ∈ ks ∧ "status" ∈ ks ∧ "reason" ∉ ks) ∧
    (∃ ks, keysOf softopenShopJSON = some ks ∧ "id" ∈ ks ∧ "status" ∈ ks ∧ "reason" ∉ ks) ∧
    (∃ ks, keysOf openShopJSON = some ks ∧ "id" ∈ ks ∧ "status" ∈ ks ∧ "reason" ∉ ks) ∧
    (∃ ks, keysOf clearCheckinJSON = some ks ∧ "id" ∈ ks ∧ "reason" ∈ ks ∧ "status" ∉ ks) := by
  refine ⟨⟨["id", "status"], ?_, ?_, ?_, ?_⟩, ⟨["id", "status"], ?_, ?_, ?_, ?_⟩,
    ⟨["id", "status"], ?_, ?_, ?_, ?_⟩, ⟨["id", "reason"], ?_, ?_, ?_, ?_⟩⟩
  all_goals first
    | (simp only [keysOf, parse_closeShopJSON, parse_softopenShopJSON, parse_openShopJSON,
        parse_clearCheckinJSON]; rfl)
    | decide

/-- Claim C3: the "status" of each shop-status template is a string of the
enumeration Closed / Soft Open / Open and matches the template name: "Closed" for
closeShopJSON, "Soft Open" for softopenShopJSON, "Open" for openShopJSON; read in
that order the three templates give the three states, one each. -/
theorem status_matches_template :
    fieldOf "status" closeShopJSON = some (JValue.string "Closed") ∧
    fieldOf "status" softopenShopJSON = some (JValue.string "Soft Open") ∧
    fieldOf "status" openShopJSON = some (JValue.string "Open") ∧
    (∀ t ∈ [closeShopJSON, softopenShopJSON, openShopJSON],
      ∃ s ∈ shopStates, stringFieldOf "status" t = some s) ∧
    [closeShopJSON, softopenShopJSON, openShopJSON].map (stringFieldOf "status")
      = shopStates.map some ∧
    shopStates.Nodup := by
  have h1 : fieldOf "status" closeShopJSON = some (JValue.string "Closed") := by
    simp only [fieldOf, parse_closeShopJSON]; rfl
  have h2 : fieldOf "status" softopenShopJSON = some (JValue.string "Soft Open") := by
    simp only [fieldOf, parse_softopenShopJSON]; rfl
  have h3 : fieldOf "status" openShopJSON = some (JValue.string "Open") := by
    simp only [fieldOf, parse_openShopJSON]; rfl
  have s1 : stringFieldOf "status" closeShopJSON = some "Closed" := by
    simp only [stringFieldOf, h1]
  have s2 : stringFieldOf "status" softopenShopJSON = some "Soft Open" := by
    simp only [stringFieldOf, h2]
  have s3 : stringFieldOf "status" openShopJSON = some "Open" := by
    simp only [stringFieldOf, h3]
  refine ⟨h1, h2, h3, ?_, ?_, by decide⟩
  · intro t ht
    simp only [List.mem_cons, List.mem_singleton, List.not_mem_nil, or_false] at ht
    rcases ht with rfl | rfl | rfl
    · exact ⟨"Closed", by decide, s1⟩
    · exact ⟨"Soft Open", by decide, s2⟩
    · exact ⟨"Open", by decide, s3⟩
  · simp only [List.map, s1, s2, s3, shopStates]

/-- Claim C4: each of the eight constants is a non-empty string: its C length (bytes
before the first NUL) and its number of characters are both greater than zero. -/
theorem constants_nonempty :
    (0 < cStrlen urlShopStatus ∧ 0 < urlShopStatus.length) ∧
    (0 < cStrlen closeShopJSON ∧ 0 < closeShopJSON.length) ∧
    (0 < cStrlen softopenShopJSON ∧ 0 < softopenShopJSON.length) ∧
    (0 < cStrlen openShopJSON ∧ 0 < openShopJSON.length) ∧
    (0 < cStrlen urlClearCheckin ∧ 0 < urlClearCheckin.length) ∧
    (0 < cStrlen clearCheckinJSON ∧ 0 < clearCheckinJSON.length) ∧
    (0 < cStrlen wifiSSID ∧ 0 < wifiSSID.length) ∧
    (0 < cStrlen wifiPassword ∧ 0 < wifiPassword.length) := by
  decide

end FourButton

namespace FourButton

/-- Claim C5: every one of the eight constants contains the marker "REPLACE_WITH_";
the four non-JSON constants are, as a whole, one token that begins with the marker;
in each JSON template the "id" field is a string that begins with the marker. -/
theorem constants_are_placeholders :
    (hasMarker urlShopStatus = true ∧ hasMarker closeShopJSON = true ∧
      hasMarker softopenShopJSON = true ∧ hasMarker openShopJSON = true ∧
      hasMarker urlClearCheckin = true ∧ hasMarker clearCheckinJSON = true ∧
      hasMarker wifiSSID = true ∧ hasMarker wifiPassword = true) ∧
    (isPlaceholderToken urlShopStatus = true ∧ isPlaceholderToken urlClearCheckin = true ∧
      isPlaceholderToken wifiSSID = true ∧ isPlaceholderToken wifiPassword = true) ∧
    (∃ v, stringFieldOf "id" closeShopJSON = some v ∧ startsWithMarker v = true) ∧
    (∃ v, stringFieldOf "id" softopenShopJSON = some v ∧ startsWithMarker v = true) ∧
    (∃ v, stringFieldOf "id" openShopJSON = some v ∧ startsWithMarker v = true) ∧
    (∃ v, stringFieldOf "id" clearCheckinJSON = some v ∧ startsWithMarker v = true) := by
  have m : startsWithMarker recordIdPlaceholder = true := by decide
  refine ⟨by decide, by decide, ⟨recordIdPlaceholder, ?_, m⟩, ⟨recordIdPlaceholder, ?_, m⟩,
    ⟨recordIdPlaceholder, ?_, m⟩, ⟨recordIdPlaceholder, ?_, m⟩⟩
  · simp only [stringFieldOf, fieldOf, parse_closeShopJSON]; rfl
  · simp only [stringFieldOf, fieldOf, parse_softopenShopJSON]; rfl
  · simp only [stringFieldOf, fieldOf, parse_openShopJSON]; rfl
  · simp only [stringFieldOf, fieldOf, parse_clearCheckinJSON]; rfl

/-- Claim C6 as stated, refuted: the update `wifiSSID = wifiPassword;` is accepted by
the type checker, because the pointer is not `const`, and afterwards `wifiSSID`
denotes a different string than it did after initialisation. -/
theorem assignment_rebinds_name :
    ¬ (∀ (op : ConfigOp) (σ : ConfigState) (n : ConfigName),
        step initState op = some σ → denotes σ n = denotes initState n) := by
  intro h
  have h1 := h (ConfigOp.assign ConfigName.wifiSSID (literalAddr ConfigName.wifiPassword))
    (exec initState
      (ConfigOp.assign ConfigName.wifiSSID (literalAddr ConfigName.wifiPassword)))
    ConfigName.wifiSSID rfl
  revert h1
  decide

/-- Claim C6, amended: in every state, an assignment to any of the eight names is
accepted by the type checker, because each global is a non-const pointer; it leaves
the characters of every array in memory unchanged, makes the assigned name hold the
new address and denote the array found there, and leaves the pointer and the
denoted string of every other name as they were.  A store through any of the eight
names is rejected, because each global points at `const char`.  Hence every accepted
update is an assignment and keeps all characters in memory unchanged. -/
theorem assignment_accepted_store_rejected (σ : ConfigState) :
    (∀ (name : ConfigName) (addr : Nat),
      wellTyped (ConfigOp.assign name addr) = true ∧
      step σ (ConfigOp.assign name addr) = some (exec σ (ConfigOp.assign name addr)) ∧
      (exec σ (ConfigOp.assign name addr)).mem = σ.mem ∧
      (exec σ (ConfigOp.assign name addr)).ptr name = addr ∧
      denotes (exec σ (ConfigOp.assign name addr)) name = σ.mem addr ∧
      ∀ m, m ≠ name →
        (exec σ (ConfigOp.assign name addr)).ptr m = σ.ptr m ∧
        denotes (exec σ (ConfigOp.assign name addr)) m = denotes σ m) ∧
    (∀ (name : ConfigName) (index : Nat) (c : Char),
      wellTyped (ConfigOp.store name index c) = false ∧
      step σ (ConfigOp.store name index c) = none) ∧
    (∀ (op : ConfigOp) (σ1 : ConfigState), step σ op = some σ1 →
      σ1.mem = σ.mem ∧ ∃ name addr, op = ConfigOp.assign name addr) := by
  have okAssign : ∀ (name : ConfigName) (addr : Nat),
      wellTyped (ConfigOp.assign name addr) = true := by
    intro name addr
    cases name <;> rfl
  have noStore : ∀ (name : ConfigName) (index : Nat) (c : Char),
      wellTyped (ConfigOp.store name index c) = false := by
    intro name index c
    cases name <;> rfl
  refine ⟨?_, ?_, ?_⟩
  · intro name addr
    refine ⟨okAssign name addr, ?_, rfl, ?_, ?_, ?_⟩
    · simp only [step, okAssign name addr, if_true]
    · simp only [exec, if_true]
    · simp only [denotes, exec, if_true]
    · intro m hm
      refine ⟨?_, ?_⟩
      · simp only [exec, if_neg hm]
      · simp only [denotes, exec, if_neg hm]
  · intro name index c
    refine ⟨noStore name index c, ?_⟩
    simp [step, noStore name index c]
  · intro op σ1 h
    cases op with
    | store name index c =>
      simp [step, noStore name index c] at h
    | assign name addr =>
      simp only [step, okAssign name addr, if_true, Option.some.injEq] at h
      subst h
      exact ⟨rfl, name, addr, rfl⟩

/-- The amended C6 statement at the state after initialisation: `wifiSSID = p;` with
`p` the address of the password literal is accepted and makes `wifiSSID` denote the
password literal, `urlShopStatus` keeps denoting its own literal, a store through
`wifiSSID` is rejected, and the accepted update left memory unchanged. -/
theorem assignment_accepted_store_rejected_witness :
    step initState (ConfigOp.assign ConfigName.wifiSSID 7)
        = some (exec initState (ConfigOp.assign ConfigName.wifiSSID 7)) ∧
    denotes (exec initState (ConfigOp.assign ConfigName.wifiSSID 7)) ConfigName.wifiSSID
        = some wifiPassword ∧
    denotes (exec initState (ConfigOp.assign ConfigName.wifiSSID 7)) ConfigName.urlShopStatus
        = some urlShopStatus ∧
    step initState (ConfigOp.store ConfigName.wifiSSID 0 (Char.ofNat 0x58)) = none ∧
    (exec initState (ConfigOp.assign ConfigName.wifiSSID 7)).mem = initState.mem :=
  ⟨((assignment_accepted_store_rejected initState).1 ConfigName.wifiSSID 7).2.1,
    ((assignment_accepted_store_rejected initState).1 ConfigName.wifiSSID 7).2.2.2.2.1,
    (((assignment_accepted_store_rejected initState).1 ConfigName.wifiSSID 7).2.2.2.2.2
      ConfigName.urlShopStatus (by decide)).2,
    ((assignment_accepted_store_rejected initState).2.1 ConfigName.wifiSSID 0
      (Char.ofNat 0x58)).2,
    ((assignment_accepted_store_rejected initState).2.2
      (ConfigOp.assign ConfigName.wifiSSID 7)
      (exec initState (ConfigOp.assign ConfigName.wifiSSID 7)) rfl).1⟩

/-- Claim C7: all four templates carry the same "id", the string
"REPLACE_WITH_MAKERSPACE_RECORD_ID"; the three shop-status templates are pairwise
distinct strings, and once parsed they have the same member names and the same
members apart from "status", while their "status" values are pairwise distinct. -/
theorem templates_share_id_differ_in_status :
    (stringFieldOf "id" closeShopJSON = some "REPLACE_WITH_MAKERSPACE_RECORD_ID" ∧
      stringFieldOf "id" softopenShopJSON = some "REPLACE_WITH_MAKERSPACE_RECORD_ID" ∧
      stringFieldOf "id" openShopJSON = some "REPLACE_WITH_MAKERSPACE_RECORD_ID" ∧
      stringFieldOf "id" clearCheckinJSON = some "REPLACE_WITH_MAKERSPACE_RECORD_ID") ∧
    (closeShopJSON ≠ softopenShopJSON ∧ closeShopJSON ≠ openShopJSON ∧
      softopenShopJSON ≠ openShopJSON) ∧
    (keysOf closeShopJSON = keysOf softopenShopJSON ∧
      keysOf softopenShopJSON = keysOf openShopJSON ∧
      (keysOf closeShopJSON).isSome = true) ∧
    (membersWithout "status" closeShopJSON = membersWithout "status" softopenShopJSON ∧
      membersWithout "status" softopenShopJSON = membersWithout "status" openShopJSON ∧
      (membersWithout "status" closeShopJSON).isSome = true) ∧
    (stringFieldOf "status" closeShopJSON ≠ stringFieldOf "status" softopenShopJSON ∧
      stringFieldOf "status" closeShopJSON ≠ stringFieldOf "status" openShopJSON ∧
      stringFieldOf "status" softopenShopJSON ≠ stringFieldOf "status" openShopJSON) := by
  have i1 : stringFieldOf "id" closeShopJSON = some recordIdPlaceholder := by
    simp only [stringFieldOf, fieldOf, parse_closeShopJSON]; rfl
  have i2 : stringFieldOf "id" softopenShopJSON = some recordIdPlaceholder := by
    simp only [stringFieldOf, fieldOf, parse_softopenShopJSON]; rfl
  have i3 : stringFieldOf "id" openShopJSON = some recordIdPlaceholder := by
    simp only [stringFieldOf, fieldOf, parse_openShopJSON]; rfl
  have i4 : stringFieldOf "id" clearCheckinJSON = some recordIdPlaceholder := by
    simp only [stringFieldOf, fieldOf, parse_clearCheckinJSON]; rfl
  have s1 : stringFieldOf "status" closeShopJSON = some "Closed" := by
    simp only [stringFieldOf, fieldOf, parse_closeShopJSON]; rfl
  have s2 : stringFieldOf "status" softopenShopJSON = some "Soft Open" := by
    simp only [stringFieldOf, fieldOf, parse_softopenShopJSON]; rfl
  have s3 : stringFieldOf "status" openShopJSON = some "Open" := by
    simp only [stringFieldOf, fieldOf, parse_openShopJSON]; rfl
  refine ⟨⟨i1, i2, i3, i4⟩, by decide, ?_, ?_, ?_⟩
  · simp only [keysOf, parse_closeShopJSON, parse_softopenShopJSON, parse_openShopJSON]
    exact ⟨rfl, rfl, rfl⟩
  · simp only [membersWithout, parse_closeShopJSON, parse_softopenShopJSON,
      parse_openShopJSON]
    exact ⟨rfl, rfl, rfl⟩
  · rw [s1, s2, s3]
    decide

/-- Claim C8: each template parses to an object with exactly two members, with
pairwise different names, whose values are both JSON strings; the "reason" of
clearCheckinJSON is the string "418", not the number 418. -/
theorem templates_are_flat_string_pairs :
    (∃ ms, parseJSON closeShopJSON = some (JValue.object ms) ∧ ms.length = 2 ∧
      (ms.map Prod.fst).Nodup ∧ ms.all (fun m => m.2.isString) = true) ∧
    (∃ ms, parseJSON softopenShopJSON = some (JValue.object ms) ∧ ms.length = 2 ∧
      (ms.map Prod.fst).Nodup ∧ ms.all (fun m => m.2.isString) = true) ∧
    (∃ ms, parseJSON openShopJSON = some (JValue.object ms) ∧ ms.length = 2 ∧
      (ms.map Prod.fst).Nodup ∧ ms.all (fun m => m.2.isString) = true) ∧
    (∃ ms, parseJSON clearCheckinJSON = some (JValue.object ms) ∧ ms.length = 2 ∧
      (ms.map Prod.fst).Nodup ∧ ms.all (fun m => m.2.isString) = true) ∧
    fieldOf "reason" clearCheckinJSON = some (JValue.string "418") ∧
    fieldOf "reason" clearCheckinJSON ≠ some (JValue.number "418") := by
  have r : fieldOf "reason" clearCheckinJSON = some (JValue.string "418") := by
    simp only [fieldOf, parse_clearCheckinJSON]; rfl
  refine ⟨⟨_, parse_closeShopJSON, rfl, by decide, rfl⟩,
    ⟨_, parse_softopenShopJSON, rfl, by decide, rfl⟩,
    ⟨_, parse_openShopJSON, rfl, by decide, rfl⟩,
    ⟨_, parse_clearCheckinJSON, rfl, by decide, rfl⟩, r, ?_⟩
  rw [r]
  intro h
  cases h

end FourButton
